import Mathlib

/-!
Shallow embedding of the EV energy / battery calculator
(`src/ev_calculator.py` of the math-model-ref repository) over exact
rational arithmetic, together with theorems settling the frozen claims.

Python floats are modelled by ℚ; numpy array operations are modelled by
index functions `ℕ → ℚ` materialised into `List ℚ` where the source
returns arrays.  Division in ℚ is total with `x / 0 = 0`; every place
where the Python code could actually divide by zero is either excluded
by a hypothesis or noted in the doc comment of the definition.
-/

open BigOperators

-- ===========================================================================
-- PART 1: DATA STRUCTURES  (ev_calculator.py lines 46-165)
-- ===========================================================================

/-- Vehicle physical parameters (`VehicleParameters` dataclass, lines 46-73). -/
structure VehicleParameters where
  mass : ℚ
  frontal_area : ℚ
  drag_coefficient : ℚ
  air_density : ℚ
  rolling_coeff : ℚ
  wheel_radius : ℚ
  gravity : ℚ
deriving DecidableEq

/-- Python exception classes that are relevant to this program.
`assertionError` is the built-in class raised by a failing `assert`
statement; `configurationError` and `invalidParameterError` are the
custom classes the natural-language spec talks about (no such classes
are defined anywhere in the source); `zeroDivisionError` is raised by
`np.arange` when the step is zero. -/
inductive PyError where
  | assertionError (msg : String)
  | configurationError (msg : String)
  | invalidParameterError (msg : String)
  | zeroDivisionError (msg : String)
deriving DecidableEq

/-- Embedding of `VehicleParameters.__post_init__` (lines 69-73): three
`assert` statements executed in order, each raising `AssertionError`
with the given message when its range check fails. -/
def VehicleParameters.validate (p : VehicleParameters) : Except PyError Unit :=
  if ¬ (1000 ≤ p.mass ∧ p.mass ≤ 3000) then
    Except.error (PyError.assertionError "Mass out of range")
  else if ¬ (1.5 ≤ p.frontal_area ∧ p.frontal_area ≤ 3.5) then
    Except.error (PyError.assertionError "Frontal area out of range")
  else if ¬ (0.2 ≤ p.drag_coefficient ∧ p.drag_coefficient ≤ 0.5) then
    Except.error (PyError.assertionError "Cd out of range")
  else
    Except.ok ()

/-- Battery system parameters (`BatteryParameters` dataclass, lines 76-103). -/
structure BatteryParameters where
  nominal_capacity : ℚ
  nominal_voltage : ℚ
  usable_capacity : ℚ
  soc_min : ℚ
  soc_max : ℚ
  soc_initial : ℚ
  resistance_internal : ℚ
  resistance_alpha : ℚ
  temp_reference : ℚ
  coulombic_efficiency : ℚ
  ocv_full : ℚ
  ocv_empty : ℚ
deriving DecidableEq

/-- `BatteryParameters.get_capacity_ah` (lines 105-107):
capacity in ampere-hours.  Python raises `ZeroDivisionError` when
`nominal_voltage = 0`; here `x / 0 = 0`. -/
def BatteryParameters.get_capacity_ah (b : BatteryParameters) : ℚ :=
  (b.nominal_capacity * 1000) / b.nominal_voltage

/-- `BatteryParameters.get_ocv` (lines 109-116): linear OCV model. -/
def BatteryParameters.get_ocv (b : BatteryParameters) (soc : ℚ) : ℚ :=
  b.ocv_empty + (b.ocv_full - b.ocv_empty) * soc

/-- Electric powertrain parameters (`PowertrainParameters`, lines 119-140). -/
structure PowertrainParameters where
  motor_power_peak : ℚ
  motor_torque_max : ℚ
  motor_efficiency : ℚ
  gear_ratio : ℚ
  transmission_efficiency : ℚ
  inverter_efficiency : ℚ
  regen_efficiency : ℚ
  regen_max_power : ℚ
deriving DecidableEq

/-- `PowertrainParameters.get_overall_efficiency` (lines 142-144). -/
def PowertrainParameters.get_overall_efficiency (pt : PowertrainParameters) : ℚ :=
  pt.motor_efficiency * pt.transmission_efficiency * pt.inverter_efficiency

/-- Auxiliary loads (`AuxiliaryLoads` dataclass, lines 147-161). -/
structure AuxiliaryLoads where
  hvac_power : ℚ
  electronics : ℚ
  lighting : ℚ
  ambient_temp : ℚ
  cabin_temp_target : ℚ
  hvac_cop : ℚ
deriving DecidableEq

/-- `AuxiliaryLoads.get_total_aux_power` (lines 163-165). -/
def AuxiliaryLoads.get_total_aux_power (a : AuxiliaryLoads) : ℚ :=
  a.hvac_power + a.electronics + a.lighting

/-- Default `VehicleParameters` field values (lines 55-67):
mass 1800, frontal_area 2.3, Cd 0.28, air_density 1.2,
rolling_coeff 0.010, wheel_radius 0.34, gravity 9.81. -/
def defaultVehicle : VehicleParameters :=
  ⟨1800, 2.3, 0.28, 1.2, 0.010, 0.34, 9.81⟩

/-- Default `BatteryParameters` field values (lines 84-103):
capacity 75 kWh, voltage 400 V, usable 70 kWh, soc_min 0.10,
soc_max 0.95, soc_initial 1.0, R 0.05 Ω, alpha 0.01, T_ref 25 °C,
coulombic efficiency 0.99, ocv_full 420 V, ocv_empty 320 V. -/
def defaultBattery : BatteryParameters :=
  ⟨75, 400, 70, 0.10, 0.95, 1, 0.05, 0.01, 25, 0.99, 420, 320⟩

/-- Default `PowertrainParameters` field values (lines 127-140):
peak 150 kW, torque 310 Nm, motor eff 0.95, gear 9.0, transmission
eff 0.97, inverter eff 0.96, regen eff 0.70, regen max 70 kW. -/
def defaultPowertrain : PowertrainParameters :=
  ⟨150, 310, 0.95, 9, 0.97, 0.96, 0.70, 70⟩

/-- Default `AuxiliaryLoads` field values (lines 154-161):
hvac 0.0, electronics 0.3, lighting 0.1 kW; ambient 20 °C,
cabin target 22 °C, COP 2.5. -/
def defaultAux : AuxiliaryLoads :=
  ⟨0, 0.3, 0.1, 20, 22, 2.5⟩

-- ===========================================================================
-- PART 3: BATTERY MODEL  (ev_calculator.py lines 299-403)
-- ===========================================================================

/-- `np.clip(x, lo, hi)`: clamp `x` into `[lo, hi]`; when `lo > hi` numpy
returns `hi`, matching `min (max x lo) hi`. -/
def npClip (x lo hi : ℚ) : ℚ :=
  min (max x lo) hi

/-- `BatteryModel.coulomb_counting` (lines 320-346): forward-Euler SOC
update `soc_prev - (eta * I * dt) / (3600 * Q_ah)` followed by
`np.clip` to `[soc_min, soc_max]`. -/
def coulomb_counting (b : BatteryParameters) (current dt soc_prev : ℚ) : ℚ :=
  let delta_soc : ℚ := -(b.coulombic_efficiency * current * dt) / (3600 * b.get_capacity_ah)
  npClip (soc_prev + delta_soc) b.soc_min b.soc_max

/-- `BatteryModel.get_internal_resistance` (lines 348-366):
R = R_ref * (1 + alpha * (T - T_ref)). -/
def get_internal_resistance (b : BatteryParameters) (temperature : ℚ) : ℚ :=
  b.resistance_internal * (1 + b.resistance_alpha * (temperature - b.temp_reference))

/-- `BatteryModel.get_terminal_voltage` (lines 368-388). -/
def get_terminal_voltage (b : BatteryParameters) (soc current temperature : ℚ) : ℚ :=
  b.get_ocv soc - current * get_internal_resistance b temperature

/-- `BatteryModel.get_power_loss` (lines 390-403). -/
def get_power_loss (b : BatteryParameters) (current temperature : ℚ) : ℚ :=
  current ^ 2 * get_internal_resistance b temperature

-- ===========================================================================
-- EnergyCalculator.predict_range_with_adjustments  (lines 519-569)
-- ===========================================================================

/-- Result record of `predict_range_with_adjustments` (lines 559-569).
In Python `range_loss_percent` divides by `base_range_km` and raises
`ZeroDivisionError` at base 0; here division is total. -/
structure RangeAdjustmentResult where
  base_range_km : ℚ
  adjusted_range_km : ℚ
  f_temp : ℚ
  f_terrain : ℚ
  f_hvac : ℚ
  f_traffic : ℚ
  total_factor : ℚ
  range_loss_km : ℚ
  range_loss_percent : ℚ
deriving DecidableEq

/-- `EnergyCalculator.predict_range_with_adjustments` (lines 519-569):
temperature factor floored at 0.5, three-tier HVAC factor, product of
all four factors applied to the base range. -/
def predict_range_with_adjustments (base_range_km temperature terrain_factor traffic_factor : ℚ) :
    RangeAdjustmentResult :=
  let f_temp0 : ℚ := 1 - 0.0001 * (temperature - 21.5) ^ 2
  let f_temp : ℚ := max 0.5 f_temp0
  let f_hvac : ℚ :=
    if |temperature - 22| > 10 then 0.80
    else if |temperature - 22| > 5 then 0.90
    else 0.98
  let adjusted : ℚ := base_range_km * f_temp * terrain_factor * f_hvac * traffic_factor
  ⟨base_range_km, adjusted, f_temp, terrain_factor, f_hvac, traffic_factor,
    f_temp * terrain_factor * f_hvac * traffic_factor,
    base_range_km - adjusted,
    (1 - adjusted / base_range_km) * 100⟩

-- ===========================================================================
-- PART 2 + EnergyCalculator.calculate_energy_consumption  (lines 172-517)
-- ===========================================================================

/-- Bundle of the four parameter records bound at `EnergyCalculator`
construction (lines 419-426). -/
structure EVParams where
  vehicle : VehicleParameters
  powertrain : PowertrainParameters
  battery : BatteryParameters
  aux : AuxiliaryLoads
deriving DecidableEq

/-- Default construction of all four parameter records. -/
def defaultParams : EVParams :=
  ⟨defaultVehicle, defaultPowertrain, defaultBattery, defaultAux⟩

/-- Element access of a Python/numpy array modelled as a list: `xs[i]`,
with an irrelevant default outside the valid index range (every use in
the pipeline below is guarded by the array lengths). -/
def arrAt (xs : List ℚ) (i : ℕ) : ℚ :=
  xs.getD i 0

/-- `np.gradient(f, x)` at index `i` of an array of length `n` with
default `edge_order=1`: first-order one-sided differences at the two
boundaries, second-order central differences (non-uniform spacing
formula) in the interior.  numpy raises for `n < 2`; that case is
unreachable in the claims and returns 0 here. -/
def npGradientAt (f x : ℕ → ℚ) (n i : ℕ) : ℚ :=
  if n < 2 then 0
  else if i = 0 then (f 1 - f 0) / (x 1 - x 0)
  else if i = n - 1 then (f (n-1) - f (n-2)) / (x (n-1) - x (n-2))
  else
    let hs : ℚ := x i - x (i-1)
    let hd : ℚ := x (i+1) - x i
    (hs ^ 2 * f (i+1) + (hd ^ 2 - hs ^ 2) * f i - hd ^ 2 * f (i-1)) /
      (hs * hd * (hd + hs))

/-- `VehicleDynamics.aerodynamic_drag_force` (lines 183-202) at the
default `wind_speed = 0`: F = 0.5 * rho * Cd * A * v^2. -/
def aerodynamic_drag_force (veh : VehicleParameters) (velocity : ℚ) : ℚ :=
  0.5 * veh.air_density * veh.drag_coefficient * veh.frontal_area * velocity ^ 2

/-- `VehicleDynamics.rolling_resistance_force` (lines 204-220) at the
default `grade = 0` (the only grade the claims use):
`cos (arctan 0) = 1` exactly, so F = m * g * Cr. -/
def rolling_resistance_force (veh : VehicleParameters) : ℚ :=
  veh.mass * veh.gravity * veh.rolling_coeff

/-- `VehicleDynamics.grading_resistance_force` (lines 222-239) at
`grade = 0`: `sin (arctan 0) = 0` exactly, so F = 0. -/
def grading_resistance_force (veh : VehicleParameters) : ℚ :=
  veh.mass * veh.gravity * 0

/-- `VehicleDynamics.acceleration_force` (lines 241-251): F = m * a. -/
def acceleration_force (veh : VehicleParameters) (acceleration : ℚ) : ℚ :=
  veh.mass * acceleration

/-- `VehicleDynamics.total_tractive_force` (lines 253-279) at the default
`grade = 0`, `wind_speed = 0`: sum of the four component forces. -/
def total_tractive_force (veh : VehicleParameters) (velocity acceleration : ℚ) : ℚ :=
  acceleration_force veh acceleration + aerodynamic_drag_force veh velocity +
    rolling_resistance_force veh + grading_resistance_force veh

/-- Per-sample acceleration in `calculate_energy_consumption` (line 448):
`np.gradient(velocity, time)`. -/
def accelAt (time velocity : List ℚ) (i : ℕ) : ℚ :=
  npGradientAt (arrAt velocity) (arrAt time) time.length i

/-- Per-sample wheel power (lines 451-454):
`tractive_power = velocity * total_tractive_force`. -/
def pWheelsAt (P : EVParams) (time velocity : List ℚ) (i : ℕ) : ℚ :=
  arrAt velocity i *
    total_tractive_force P.vehicle (arrAt velocity i) (accelAt time velocity i)

/-- Per-sample motor electrical power (lines 457-468): wheel power
divided by overall efficiency when positive, otherwise the negated
regeneration power `min(|p| * regen_efficiency, regen_max_power * 1000)`. -/
def pMotorAt (P : EVParams) (time velocity : List ℚ) (i : ℕ) : ℚ :=
  let p : ℚ := pWheelsAt P time velocity i
  if p > 0 then
    p / P.powertrain.get_overall_efficiency
  else
    -(min (|p| * P.powertrain.regen_efficiency) (P.powertrain.regen_max_power * 1000))

/-- Total auxiliary power in watts (line 472): `get_total_aux_power() * 1000`. -/
def pAuxTotal (P : EVParams) : ℚ :=
  P.aux.get_total_aux_power * 1000

/-- Per-sample battery power (line 473): motor power plus auxiliary power. -/
def pBatteryAt (P : EVParams) (time velocity : List ℚ) (i : ℕ) : ℚ :=
  pMotorAt P time velocity i + pAuxTotal P

/-- Per-sample battery current (line 476): battery power divided by
nominal pack voltage. -/
def iBatteryAt (P : EVParams) (time velocity : List ℚ) (i : ℕ) : ℚ :=
  pBatteryAt P time velocity i / P.battery.nominal_voltage

/-- The SOC time-stepping loop (lines 479-484): `soc[0] = soc_initial`
(no clamping), then `soc[i] = coulomb_counting(I[i], t[i]-t[i-1], soc[i-1])`. -/
def socAt (P : EVParams) (time velocity : List ℚ) : ℕ → ℚ
  | 0 => P.battery.soc_initial
  | i + 1 =>
      coulomb_counting P.battery (iBatteryAt P time velocity (i + 1))
        (arrAt time (i + 1) - arrAt time i) (socAt P time velocity i)

/-- `np.trapz(y, x)` over arrays of length `n`: the trapezoidal rule
sum of `(y[i+1] + y[i]) / 2 * (x[i+1] - x[i])`. -/
def trapz (y x : ℕ → ℚ) (n : ℕ) : ℚ :=
  ∑ i ∈ Finset.range (n - 1), ((y (i + 1) + y i) / 2) * (x (i + 1) - x i)

/-- Regenerated energy in joules accumulated inside the loop of lines
460-469: for every sample `i > 0` with non-positive wheel power, the
recovered power times the elapsed interval is added. -/
def eRegenJoules (P : EVParams) (time velocity : List ℚ) : ℚ :=
  ∑ i ∈ Finset.range time.length,
    if 0 < pWheelsAt P time velocity i then 0
    else if i = 0 then 0
    else
      min (|pWheelsAt P time velocity i| * P.powertrain.regen_efficiency)
          (P.powertrain.regen_max_power * 1000) *
        (arrAt time i - arrAt time (i - 1))

/-- Result record returned by `calculate_energy_consumption` (lines
502-517), minus the echoed `time`/`velocity` entries. -/
structure EnergyResult where
  soc : List ℚ
  power_wheels : List ℚ
  power_battery : List ℚ
  E_traction_kWh : ℚ
  E_motor_kWh : ℚ
  E_aux_kWh : ℚ
  E_total_kWh : ℚ
  E_regen_recovered_kWh : ℚ
  distance_km : ℚ
  energy_per_km : ℚ
  estimated_range_km : ℚ
  soc_final : ℚ
deriving DecidableEq

/-- `EnergyCalculator.calculate_energy_consumption` (lines 428-517) at
the default `grade = 0`, assembled from the per-sample definitions
above.  Python raises inside `np.gradient` for cycles shorter than two
samples and at `soc[-1]` for empty cycles; the claims only evaluate
this function where Python returns. -/
def calculate_energy_consumption (P : EVParams) (time velocity : List ℚ) : EnergyResult :=
  let n : ℕ := time.length
  let tA : ℕ → ℚ := arrAt time
  let E_traction : ℚ := trapz (fun i => max (pWheelsAt P time velocity i) 0) tA n / 3600000
  let E_motor : ℚ := trapz (fun i => max (pMotorAt P time velocity i) 0) tA n / 3600000
  let E_aux : ℚ := trapz (fun _ => pAuxTotal P) tA n / 3600000
  let E_total : ℚ := E_motor + E_aux
  let distance : ℚ := trapz (arrAt velocity) tA n / 1000
  let energy_per_km : ℚ := if distance > 0 then E_total / distance else 0
  let soc_final : ℚ := socAt P time velocity (n - 1)
  let energy_remaining : ℚ := (soc_final - P.battery.soc_min) * P.battery.usable_capacity
  let estimated_range : ℚ :=
    if energy_per_km > 0 then energy_remaining / energy_per_km else 0
  ⟨(List.range n).map (socAt P time velocity),
    (List.range n).map (fun i => pWheelsAt P time velocity i / 1000),
    (List.range n).map (fun i => pBatteryAt P time velocity i / 1000),
    E_traction, E_motor, E_aux, E_total,
    eRegenJoules P time velocity / 3600000,
    distance, energy_per_km, estimated_range, soc_final⟩

-- ===========================================================================
-- PART 4: DRIVE CYCLES  (ev_calculator.py lines 576-676)
-- ===========================================================================

/-- `np.arange(start, stop, step)`: the `max(0, ceil((stop-start)/step))`
evenly spaced values `start + i*step`.  numpy raises
`ZeroDivisionError` for `step = 0`. -/
def npArange (start stop step : ℚ) : Except PyError (List ℚ) :=
  if step = 0 then
    Except.error (PyError.zeroDivisionError "division by zero")
  else
    Except.ok ((List.range (⌈(stop - start) / step⌉).toNat).map
      (fun i => start + (i : ℚ) * step))

/-- Python `a % b` on floats for `b ≠ 0`: `a - b * floor (a / b)`.
Python raises `ZeroDivisionError` at `b = 0`; the generators below only
use moduli 600 and 100. -/
def pyMod (a b : ℚ) : ℚ :=
  a - b * ⌊a / b⌋

/-- Velocity in km/h of the simplified WLTP cycle at time `t` (lines
608-618).  `np.sin(2 * np.pi * x)` is transcendental; it is modelled by
the abstract function argument `sin2pi` applied to `x`. -/
def wltpSpeedKmh (sin2pi : ℚ → ℚ) (t : ℚ) : ℚ :=
  let phase : ℚ := pyMod t 600 / 600
  if phase < 0.25 then 20 + 15 * sin2pi (phase * 4)
  else if phase < 0.5 then 40 + 20 * sin2pi ((phase - 0.25) * 4)
  else if phase < 0.75 then 60 + 15 * sin2pi ((phase - 0.5) * 4)
  else 80 + 20 * sin2pi ((phase - 0.75) * 4)

/-- `DriveCycle.generate_wltp_simplified` (lines 587-623):
`time = np.arange(0, duration, dt)`, per-sample km/h speeds, then the
whole velocity array divided by 3.6. -/
def generate_wltp_simplified (sin2pi : ℚ → ℚ) (duration dt : ℚ) :
    Except PyError (List ℚ × List ℚ) :=
  (npArange 0 duration dt).map
    (fun time => (time, (time.map (wltpSpeedKmh sin2pi)).map (fun v => v / 3.6)))

/-- `DriveCycle.generate_constant_speed` (lines 625-641):
`time = np.arange(0, duration, dt)`, `velocity = ones * (speed / 3.6)`. -/
def generate_constant_speed (speed_kmh duration dt : ℚ) :
    Except PyError (List ℚ × List ℚ) :=
  (npArange 0 duration dt).map
    (fun time => (time, time.map (fun _ => speed_kmh / 3.6)))

/-- Velocity in km/h of the urban stop-and-go cycle at time `t` (lines
658-671): 20 s linear acceleration to 50 km/h, 40 s cruise, 20 s linear
deceleration, 20 s stop, repeating every 100 s. -/
def urbanSpeedKmh (t : ℚ) : ℚ :=
  let t_in_segment : ℚ := pyMod t 100
  if t_in_segment < 20 then (t_in_segment / 20) * 50
  else if t_in_segment < 60 then 50
  else if t_in_segment < 80 then 50 - ((t_in_segment - 60) / 20) * 50
  else 0

/-- `DriveCycle.generate_urban_cycle` (lines 643-676). -/
def generate_urban_cycle (duration dt : ℚ) : Except PyError (List ℚ × List ℚ) :=
  (npArange 0 duration dt).map
    (fun time => (time, (time.map urbanSpeedKmh).map (fun v => v / 3.6)))

/-- A battery identical to the default one except for
`coulombic_efficiency = 1`, the lossless limit used by the round-trip
property of Coulomb counting. -/
def losslessBattery : BatteryParameters :=
  ⟨75, 400, 70, 0.10, 0.95, 1, 0.05, 0.01, 25, 1, 420, 320⟩

-- ===========================================================================
-- Helper lemmas
-- ===========================================================================

/-- The clamp `np.clip x lo hi` lands in `[lo, hi]` whenever `lo ≤ hi`. -/
theorem npClip_mem (x lo hi : ℚ) (h : lo ≤ hi) :
    lo ≤ npClip x lo hi ∧ npClip x lo hi ≤ hi := by
  constructor
  · exact le_min (le_max_right x lo) h
  · exact min_le_right _ _

/-- The clamp is the identity on values already inside the bounds. -/
theorem npClip_of_mem (x lo hi : ℚ) (h1 : lo ≤ x) (h2 : x ≤ hi) :
    npClip x lo hi = x := by
  rw [npClip, max_eq_left h1, min_eq_left h2]

/-- Element `i` of an array materialised from an index function. -/
theorem getD_mapRange (g : ℕ → ℚ) (n i : ℕ) (h : i < n) :
    ((List.range n).map g).getD i 0 = g i := by
  rw [List.getD_eq_getElem?_getD]
  simp [List.getElem?_map, List.getElem?_range, h]

/-- A trapezoidal sum of a pointwise non-negative integrand over
non-decreasing sample points is non-negative. -/
theorem trapz_nonneg (y x : ℕ → ℚ) (n : ℕ) (hy : ∀ i, 0 ≤ y i)
    (hx : ∀ i, i + 1 < n → x i ≤ x (i + 1)) : 0 ≤ trapz y x n := by
  apply Finset.sum_nonneg
  intro i hi
  have hi2 : i + 1 < n := by
    have := Finset.mem_range.mp hi
    omega
  have h1 : 0 ≤ (y (i + 1) + y i) / 2 := by
    have := hy i
    have := hy (i + 1)
    positivity
  have h2 : 0 ≤ x (i + 1) - x i := by
    have := hx i hi2
    linarith
  exact mul_nonneg h1 h2

/-- Every SOC sample produced after the seeding step is a clamp output,
hence lies inside `[soc_min, soc_max]` as soon as that interval is
non-empty. -/
theorem socAt_mem_of_pos (P : EVParams) (time velocity : List ℚ)
    (hb : P.battery.soc_min ≤ P.battery.soc_max) (i : ℕ) (h1 : 1 ≤ i) :
    P.battery.soc_min ≤ socAt P time velocity i ∧
      socAt P time velocity i ≤ P.battery.soc_max := by
  obtain ⟨j, rfl⟩ : ∃ j, i = j + 1 := ⟨i - 1, by omega⟩
  simp only [socAt, coulomb_counting]
  exact npClip_mem _ _ _ hb

-- ===========================================================================
-- Claim theorems
-- ===========================================================================

/-- C2 (amended): `coulomb_counting` returns exactly
`clamp(soc_prev - (eta * I * dt) / (3600 * Q_ah), soc_min, soc_max)`
with `Q_ah = nominal_capacity * 1000 / nominal_voltage`; and a positive
discharge current never increases the SOC provided the time step,
efficiency and capacity are non-negative and the previous SOC is not
already below `soc_min` (the clamp pulls lower values up to `soc_min`). -/
theorem coulomb_counting_formula_discharge (b : BatteryParameters) (I dt s : ℚ) :
    coulomb_counting b I dt s =
      npClip (s - b.coulombic_efficiency * I * dt / (3600 * b.get_capacity_ah))
        b.soc_min b.soc_max ∧
    (0 < I → 0 ≤ dt → 0 ≤ b.coulombic_efficiency → 0 ≤ b.get_capacity_ah →
      b.soc_min ≤ s → coulomb_counting b I dt s ≤ s) := by
  have hform : coulomb_counting b I dt s =
      npClip (s - b.coulombic_efficiency * I * dt / (3600 * b.get_capacity_ah))
        b.soc_min b.soc_max := by
    simp only [coulomb_counting]
    ring_nf
  refine ⟨hform, fun hI hdt hce hq hmin => ?_⟩
  rw [hform]
  have hnum : 0 ≤ b.coulombic_efficiency * I * dt :=
    mul_nonneg (mul_nonneg hce (le_of_lt hI)) hdt
  have hden : (0:ℚ) ≤ 3600 * b.get_capacity_ah := by positivity
  have hdelta : 0 ≤ b.coulombic_efficiency * I * dt / (3600 * b.get_capacity_ah) :=
    div_nonneg hnum hden
  calc npClip (s - b.coulombic_efficiency * I * dt / (3600 * b.get_capacity_ah))
        b.soc_min b.soc_max
      ≤ max (s - b.coulombic_efficiency * I * dt / (3600 * b.get_capacity_ah))
          b.soc_min := min_le_left _ _
    _ ≤ s := max_le (by linarith) hmin

/-- C2 counterexample: with the default parameters
(`soc_min = 0.10`) a discharge current of 1 A for 1 s applied at a
previous SOC of 0.05 returns 0.10, strictly increasing the SOC —
refuting the claim that a positive current never increases SOC. -/
theorem coulomb_counting_raises_soc_cex :
    0.05 < coulomb_counting defaultBattery 1 1 0.05 := by
  have : coulomb_counting defaultBattery 1 1 0.05 = 0.10 := by
    simp only [coulomb_counting, npClip, BatteryParameters.get_capacity_ah, defaultBattery]
    rw [max_def, min_def]
    norm_num
  rw [this]
  norm_num

/-- Witness for C2 applied at the default battery with `I = 1`,
`dt = 1`, `soc_prev = 0.5`. -/
theorem coulomb_counting_formula_discharge_witness :
    (0 : ℚ) < 1 ∧ (0 : ℚ) ≤ 1 ∧ 0 ≤ defaultBattery.coulombic_efficiency ∧
      0 ≤ defaultBattery.get_capacity_ah ∧ defaultBattery.soc_min ≤ 0.5 ∧
      coulomb_counting defaultBattery 1 1 0.5 ≤ 0.5 :=
  ⟨by norm_num, by norm_num,
    by norm_num [defaultBattery],
    by norm_num [BatteryParameters.get_capacity_ah, defaultBattery],
    by norm_num [defaultBattery],
    (coulomb_counting_formula_discharge defaultBattery 1 1 0.5).2 (by norm_num)
      (by norm_num) (by norm_num [defaultBattery])
      (by norm_num [BatteryParameters.get_capacity_ah, defaultBattery])
      (by norm_num [defaultBattery])⟩

/-- C6: `get_internal_resistance` computes
`R_ref * (1 + alpha * (T - T_ref))`, and with the reference temperature
25 °C, a positive temperature coefficient and a positive reference
resistance, the returned resistance is strictly below `R_ref` for every
temperature below the reference — resistance decreases in the cold, as
the spec notes. -/
theorem internal_resistance_formula_cold (b : BatteryParameters) (T : ℚ) :
    get_internal_resistance b T =
      b.resistance_internal * (1 + b.resistance_alpha * (T - b.temp_reference)) ∧
    (b.temp_reference = 25 → 0 < b.resistance_alpha → 0 < b.resistance_internal →
      T < b.temp_reference → get_internal_resistance b T < b.resistance_internal) := by
  refine ⟨rfl, fun h25 ha hr hT => ?_⟩
  rw [get_internal_resistance]
  have hneg : b.resistance_alpha * (T - b.temp_reference) < 0 :=
    mul_neg_of_pos_of_neg ha (by linarith)
  nlinarith

/-- Witness for C6 at the default battery and T = 0 °C. -/
theorem internal_resistance_formula_cold_witness :
    defaultBattery.temp_reference = 25 ∧ 0 < defaultBattery.resistance_alpha ∧
      0 < defaultBattery.resistance_internal ∧ (0 : ℚ) < defaultBattery.temp_reference ∧
      get_internal_resistance defaultBattery 0 < defaultBattery.resistance_internal :=
  ⟨rfl, by norm_num [defaultBattery], by norm_num [defaultBattery],
    by norm_num [defaultBattery],
    (internal_resistance_formula_cold defaultBattery 0).2 rfl
      (by norm_num [defaultBattery]) (by norm_num [defaultBattery])
      (by norm_num [defaultBattery])⟩

/-- C8: round-trip symmetry of Coulomb counting in the lossless limit:
with `coulombic_efficiency = 1`, when neither the discharge step, nor
the starting SOC, leaves `[soc_min, soc_max]` (so no clamp engages),
charging back with `-I` for the same `dt` restores the starting SOC
exactly (exact rational arithmetic stands in for the floating-point
tolerance). -/
theorem coulomb_counting_round_trip (b : BatteryParameters) (I dt s : ℚ)
    (he : b.coulombic_efficiency = 1)
    (h1 : b.soc_min ≤ s - I * dt / (3600 * b.get_capacity_ah))
    (h2 : s - I * dt / (3600 * b.get_capacity_ah) ≤ b.soc_max)
    (h3 : b.soc_min ≤ s) (h4 : s ≤ b.soc_max) :
    coulomb_counting b (-I) dt (coulomb_counting b I dt s) = s := by
  have e1 : coulomb_counting b I dt s = s - I * dt / (3600 * b.get_capacity_ah) := by
    simp only [coulomb_counting, he]
    have ha : s + -(1 * I * dt) / (3600 * b.get_capacity_ah) =
        s - I * dt / (3600 * b.get_capacity_ah) := by ring
    rw [ha]
    exact npClip_of_mem _ _ _ h1 h2
  rw [e1]
  simp only [coulomb_counting, he]
  have hb2 : s - I * dt / (3600 * b.get_capacity_ah) +
      -(1 * -I * dt) / (3600 * b.get_capacity_ah) = s := by ring
  rw [hb2]
  exact npClip_of_mem _ _ _ h3 h4

/-- Witness for C8: lossless battery, `I = 675` A, `dt = 100` s,
starting SOC 0.5; the discharge step lands at 0.4 and the charge step
returns to 0.5. -/
theorem coulomb_counting_round_trip_witness :
    losslessBattery.coulombic_efficiency = 1 ∧
      losslessBattery.soc_min ≤ 0.5 - 675 * 100 / (3600 * losslessBattery.get_capacity_ah) ∧
      0.5 - 675 * 100 / (3600 * losslessBattery.get_capacity_ah) ≤ losslessBattery.soc_max ∧
      losslessBattery.soc_min ≤ (0.5 : ℚ) ∧ (0.5 : ℚ) ≤ losslessBattery.soc_max ∧
      coulomb_counting losslessBattery (-675) 100 (coulomb_counting losslessBattery 675 100 0.5) = 0.5 :=
  ⟨rfl,
    by norm_num [BatteryParameters.get_capacity_ah, losslessBattery],
    by norm_num [BatteryParameters.get_capacity_ah, losslessBattery],
    by norm_num [losslessBattery], by norm_num [losslessBattery],
    coulomb_counting_round_trip losslessBattery 675 100 0.5 rfl
      (by norm_num [BatteryParameters.get_capacity_ah, losslessBattery])
      (by norm_num [BatteryParameters.get_capacity_ah, losslessBattery])
      (by norm_num [losslessBattery]) (by norm_num [losslessBattery])⟩

/-- C9: `predict_range_with_adjustments` computes the temperature factor
`max(0.5, 1 - 0.0001 * (T - 21.5)^2)`, the three-tier HVAC factor on
`|T - 22|`, and the adjusted range as the product of the base range with
all four factors. -/
theorem range_adjustment_factors (base T terrain traffic : ℚ) :
    (predict_range_with_adjustments base T terrain traffic).f_temp =
        max 0.5 (1 - 0.0001 * (T - 21.5) ^ 2) ∧
    (predict_range_with_adjustments base T terrain traffic).f_hvac =
        (if |T - 22| > 10 then 0.80 else if |T - 22| > 5 then 0.90 else 0.98) ∧
    (predict_range_with_adjustments base T terrain traffic).adjusted_range_km =
      base * (predict_range_with_adjustments base T terrain traffic).f_temp * terrain *
        (predict_range_with_adjustments base T terrain traffic).f_hvac * traffic :=
  ⟨rfl, rfl, rfl⟩

/-- C5 (amended): constructing `VehicleParameters` fails exactly when
mass is outside [1000, 3000], frontal_area outside [1.5, 3.5] or the
drag coefficient outside [0.2, 0.5] — but the failure is the
`AssertionError` of a bare `assert` statement; no `ConfigurationError`
class exists in the code, so construction can never fail with one. -/
theorem vehicle_validation_iff_ranges (p : VehicleParameters) :
    (p.validate = Except.ok () ↔
      (1000 ≤ p.mass ∧ p.mass ≤ 3000) ∧ (1.5 ≤ p.frontal_area ∧ p.frontal_area ≤ 3.5) ∧
        (0.2 ≤ p.drag_coefficient ∧ p.drag_coefficient ≤ 0.5)) ∧
    (∀ msg, p.validate ≠ Except.error (PyError.configurationError msg)) := by
  rw [VehicleParameters.validate]
  split_ifs with hm hf hc <;> simp_all

/-- C5 counterexample: a vehicle of mass 500 kg (all other fields at
their defaults) fails construction with
`AssertionError "Mass out of range"`, not with any `ConfigurationError`. -/
theorem vehicle_validation_assertion_cex :
    VehicleParameters.validate ⟨500, 2.3, 0.28, 1.2, 0.010, 0.34, 9.81⟩ =
      Except.error (PyError.assertionError "Mass out of range") ∧
    ∀ msg, VehicleParameters.validate ⟨500, 2.3, 0.28, 1.2, 0.010, 0.34, 9.81⟩ ≠
      Except.error (PyError.configurationError msg) := by
  have h : VehicleParameters.validate ⟨500, 2.3, 0.28, 1.2, 0.010, 0.34, 9.81⟩ =
      Except.error (PyError.assertionError "Mass out of range") := by
    rw [VehicleParameters.validate]
    norm_num
  exact ⟨h, fun msg hne => by rw [h] at hne; simp at hne⟩

/-- Witness for C5 at a vehicle with every field inside its range:
construction succeeds, matching the right-hand side of the equivalence. -/
theorem vehicle_validation_iff_ranges_witness :
    VehicleParameters.validate ⟨1800, 2.3, 0.28, 1.2, 0.010, 0.34, 9.81⟩ = Except.ok () ∧
      VehicleParameters.validate ⟨1800, 2.3, 0.28, 1.2, 0.010, 0.34, 9.81⟩ ≠
        Except.error (PyError.configurationError "x") :=
  ⟨(vehicle_validation_iff_ranges ⟨1800, 2.3, 0.28, 1.2, 0.010, 0.34, 9.81⟩).1.mpr
      (by norm_num),
    (vehicle_validation_iff_ranges ⟨1800, 2.3, 0.28, 1.2, 0.010, 0.34, 9.81⟩).2 "x"⟩

/-- C7: at every sample of a drive cycle, the motor electrical power is
the wheel power divided by the overall powertrain efficiency where the
wheel power is positive, and the negated capped regeneration power
`min(|p| * regen_efficiency, regen_max_power * 1000)` where it is not. -/
theorem motor_power_partition (P : EVParams) (time velocity : List ℚ) (i : ℕ)
    (_hi : i < time.length) :
    (0 < pWheelsAt P time velocity i →
      pMotorAt P time velocity i =
        pWheelsAt P time velocity i / P.powertrain.get_overall_efficiency) ∧
    (pWheelsAt P time velocity i ≤ 0 →
      pMotorAt P time velocity i =
        -(min (|pWheelsAt P time velocity i| * P.powertrain.regen_efficiency)
            (P.powertrain.regen_max_power * 1000))) := by
  constructor
  · intro h
    simp only [pMotorAt]
    rw [if_pos h]
  · intro h
    simp only [pMotorAt]
    rw [if_neg (not_lt.mpr h)]

/-- Witness for C7: the two-sample standstill cycle, sample 0, where the
wheel power is 0 and the motor power is the negated (zero) regen power. -/
theorem motor_power_partition_witness :
    0 < ([(0 : ℚ), 1] : List ℚ).length ∧
      (0 < pWheelsAt defaultParams [0, 1] [0, 0] 0 →
        pMotorAt defaultParams [0, 1] [0, 0] 0 =
          pWheelsAt defaultParams [0, 1] [0, 0] 0 /
            defaultParams.powertrain.get_overall_efficiency) ∧
      (pWheelsAt defaultParams [0, 1] [0, 0] 0 ≤ 0 →
        pMotorAt defaultParams [0, 1] [0, 0] 0 =
          -(min (|pWheelsAt defaultParams [0, 1] [0, 0] 0| *
                defaultParams.powertrain.regen_efficiency)
              (defaultParams.powertrain.regen_max_power * 1000))) :=
  ⟨by norm_num, motor_power_partition defaultParams [0, 1] [0, 0] 0 (by norm_num)⟩

/-- C3 (amended): the three drive-cycle generators perform no input
validation at all: for any non-positive duration and positive time step
each of them returns the empty `(time, velocity)` pair normally instead
of raising anything — in particular no `InvalidParameterError`, a class
that does not exist in the code. -/
theorem generators_no_validation (sin2pi : ℚ → ℚ) (speed duration dt : ℚ)
    (hdur : duration ≤ 0) (hdt : 0 < dt) :
    generate_constant_speed speed duration dt = Except.ok ([], []) ∧
    generate_wltp_simplified sin2pi duration dt = Except.ok ([], []) ∧
    generate_urban_cycle duration dt = Except.ok ([], []) := by
  have harange : npArange 0 duration dt = Except.ok [] := by
    rw [npArange, if_neg (ne_of_gt hdt)]
    have hq : (duration - 0) / dt ≤ 0 :=
      div_nonpos_iff.mpr (Or.inr ⟨by linarith, le_of_lt hdt⟩)
    have hceil : ⌈(duration - 0) / dt⌉ ≤ 0 := by
      rw [Int.ceil_le]
      push_cast
      linarith
    have htn : (⌈(duration - 0) / dt⌉).toNat = 0 := Int.toNat_of_nonpos hceil
    rw [htn]
    simp
  refine ⟨?_, ?_, ?_⟩ <;>
    simp [generate_constant_speed, generate_wltp_simplified, generate_urban_cycle,
      harange, Except.map]

/-- C3 counterexample: `generate_constant_speed(100, duration=-1, dt=1)`
returns the pair of empty arrays — it does not fail. -/
theorem generators_return_empty_cex :
    generate_constant_speed 100 (-1) 1 = Except.ok ([], []) ∧
    ∀ e, generate_constant_speed 100 (-1) 1 ≠ Except.error e := by
  have harange : npArange 0 (-1) 1 = Except.ok [] := by
    rw [npArange, if_neg (by norm_num)]
    have hc : ⌈((-1 : ℚ) - 0) / 1⌉ = -1 := by
      rw [show ((-1 : ℚ) - 0) / 1 = ((-1 : ℤ) : ℚ) by push_cast; ring]
      exact Int.ceil_intCast (-1)
    rw [hc]
    simp
  have h : generate_constant_speed 100 (-1) 1 = Except.ok ([], []) := by
    simp [generate_constant_speed, harange, Except.map]
  exact ⟨h, fun e hne => by rw [h] at hne; simp at hne⟩

/-- Witness for C3 applied at duration -5 and step 1 (with the identity
standing in for the abstract sine). -/
theorem generators_no_validation_witness :
    ((-5 : ℚ) ≤ 0) ∧ ((0 : ℚ) < 1) ∧
      generate_constant_speed 100 (-5) 1 = Except.ok ([], []) ∧
      generate_wltp_simplified (fun x => x) (-5) 1 = Except.ok ([], []) ∧
      generate_urban_cycle (-5) 1 = Except.ok ([], []) :=
  ⟨by norm_num, by norm_num,
    generators_no_validation (fun x => x) 100 (-5) 1 (by norm_num) (by norm_num)⟩

/-- C10: the first element of the SOC sequence returned by
`calculate_energy_consumption` is exactly the configured `soc_initial`,
with no clamping; hence whenever `soc_initial` exceeds `soc_max` (as the
defaults do: 1.0 vs 0.95) the trajectory starts outside
`[soc_min, soc_max]`. -/
theorem soc_initial_unclamped (P : EVParams) (time velocity : List ℚ)
    (h1 : 1 ≤ time.length) :
    (calculate_energy_consumption P time velocity).soc.getD 0 0 = P.battery.soc_initial ∧
    (P.battery.soc_max < P.battery.soc_initial →
      P.battery.soc_max < (calculate_energy_consumption P time velocity).soc.getD 0 0) := by
  have hsoc : (calculate_energy_consumption P time velocity).soc =
      (List.range time.length).map (socAt P time velocity) := rfl
  have h0 : (calculate_energy_consumption P time velocity).soc.getD 0 0 =
      P.battery.soc_initial := by
    rw [hsoc, getD_mapRange _ _ 0 (by omega)]
    rfl
  exact ⟨h0, fun h => by rw [h0]; exact h⟩

/-- Witness for C10 at the default parameters and the two-sample
standstill cycle: the SOC trajectory starts at 1.0, strictly above
`soc_max = 0.95`. -/
theorem soc_initial_unclamped_witness :
    1 ≤ ([(0 : ℚ), 1] : List ℚ).length ∧
      (calculate_energy_consumption defaultParams [0, 1] [0, 0]).soc.getD 0 0 =
        defaultParams.battery.soc_initial ∧
      defaultParams.battery.soc_max <
        (calculate_energy_consumption defaultParams [0, 1] [0, 0]).soc.getD 0 0 :=
  ⟨by norm_num,
    (soc_initial_unclamped defaultParams [0, 1] [0, 0] (by norm_num)).1,
    (soc_initial_unclamped defaultParams [0, 1] [0, 0] (by norm_num)).2
      (by norm_num [defaultParams, defaultBattery])⟩

/-- C1 (amended): every SOC sample from index 1 on is a clamp output and
therefore lies in `[soc_min, soc_max]` whenever that interval is
non-empty, and so does `soc_final` for every cycle of at least two
samples; only the seeding element `soc[0] = soc_initial` escapes the
bounds. -/
theorem soc_clamped_after_first_step (P : EVParams) (time velocity : List ℚ)
    (hb : P.battery.soc_min ≤ P.battery.soc_max) :
    (∀ i, 1 ≤ i → i < time.length →
      P.battery.soc_min ≤ (calculate_energy_consumption P time velocity).soc.getD i 0 ∧
        (calculate_energy_consumption P time velocity).soc.getD i 0 ≤ P.battery.soc_max) ∧
    (2 ≤ time.length →
      P.battery.soc_min ≤ (calculate_energy_consumption P time velocity).soc_final ∧
        (calculate_energy_consumption P time velocity).soc_final ≤ P.battery.soc_max) := by
  have hsoc : (calculate_energy_consumption P time velocity).soc =
      (List.range time.length).map (socAt P time velocity) := rfl
  have hfin : (calculate_energy_consumption P time velocity).soc_final =
      socAt P time velocity (time.length - 1) := rfl
  constructor
  · intro i hge hlt
    rw [hsoc, getD_mapRange _ _ i hlt]
    exact socAt_mem_of_pos P time velocity hb i hge
  · intro h2
    rw [hfin]
    exact socAt_mem_of_pos P time velocity hb (time.length - 1) (by omega)

/-- C1 counterexample: with the default parameters
(`soc_initial = 1.0`, `soc_max = 0.95`) and the two-sample standstill
cycle, the returned SOC sequence is non-empty and its first element, 1.0,
lies strictly above `soc_max` — refuting the claim that every element of
the returned SOC sequence lies within `[soc_min, soc_max]`. -/
theorem soc_start_escapes_bounds_cex :
    0 < (calculate_energy_consumption defaultParams [0, 1] [0, 0]).soc.length ∧
      defaultParams.battery.soc_max <
        (calculate_energy_consumption defaultParams [0, 1] [0, 0]).soc.getD 0 0 := by
  have hsoc : (calculate_energy_consumption defaultParams [0, 1] [0, 0]).soc =
      (List.range 2).map (socAt defaultParams [0, 1] [0, 0]) := rfl
  constructor
  · rw [hsoc]
    simp
  · rw [hsoc, getD_mapRange _ _ 0 (by norm_num)]
    have h0 : socAt defaultParams [0, 1] [0, 0] 0 = 1 := rfl
    rw [h0]
    norm_num [defaultParams, defaultBattery]

/-- Witness for C1's amended theorem at the default parameters and the
two-sample standstill cycle: the second sample and the final SOC stay
inside `[0.10, 0.95]`. -/
theorem soc_clamped_after_first_step_witness :
    defaultParams.battery.soc_min ≤ defaultParams.battery.soc_max ∧
      (defaultParams.battery.soc_min ≤
          (calculate_energy_consumption defaultParams [0, 1] [0, 0]).soc.getD 1 0 ∧
        (calculate_energy_consumption defaultParams [0, 1] [0, 0]).soc.getD 1 0 ≤
          defaultParams.battery.soc_max) ∧
      (defaultParams.battery.soc_min ≤
          (calculate_energy_consumption defaultParams [0, 1] [0, 0]).soc_final ∧
        (calculate_energy_consumption defaultParams [0, 1] [0, 0]).soc_final ≤
          defaultParams.battery.soc_max) :=
  ⟨by norm_num [defaultParams, defaultBattery],
    (soc_clamped_after_first_step defaultParams [0, 1] [0, 0]
        (by norm_num [defaultParams, defaultBattery])).1 1 (by norm_num) (by norm_num),
    (soc_clamped_after_first_step defaultParams [0, 1] [0, 0]
        (by norm_num [defaultParams, defaultBattery])).2 (by norm_num)⟩

/-- C4: the division guards in `calculate_energy_consumption` — for any
cycle with non-decreasing time samples and non-negative total auxiliary
power: zero distance yields `energy_per_km = 0` (not a division fault),
zero `energy_per_km` yields `estimated_range_km = 0`, and otherwise
`estimated_range_km = (soc_final - soc_min) * usable_capacity /
energy_per_km`. -/
theorem range_guards_division (P : EVParams) (time velocity : List ℚ)
    (hmono : ∀ i, i + 1 < time.length → arrAt time i ≤ arrAt time (i + 1))
    (haux : 0 ≤ P.aux.get_total_aux_power) :
    ((calculate_energy_consumption P time velocity).distance_km = 0 →
      (calculate_energy_consumption P time velocity).energy_per_km = 0) ∧
    ((calculate_energy_consumption P time velocity).energy_per_km = 0 →
      (calculate_energy_consumption P time velocity).estimated_range_km = 0) ∧
    ((calculate_energy_consumption P time velocity).energy_per_km ≠ 0 →
      (calculate_energy_consumption P time velocity).estimated_range_km =
        ((calculate_energy_consumption P time velocity).soc_final - P.battery.soc_min) *
          P.battery.usable_capacity /
          (calculate_energy_consumption P time velocity).energy_per_km) := by
  have hepk : (calculate_energy_consumption P time velocity).energy_per_km =
      (if (calculate_energy_consumption P time velocity).distance_km > 0 then
        (calculate_energy_consumption P time velocity).E_total_kWh /
          (calculate_energy_consumption P time velocity).distance_km
      else 0) := rfl
  have hrange : (calculate_energy_consumption P time velocity).estimated_range_km =
      (if (calculate_energy_consumption P time velocity).energy_per_km > 0 then
        ((calculate_energy_consumption P time velocity).soc_final - P.battery.soc_min) *
          P.battery.usable_capacity /
          (calculate_energy_consumption P time velocity).energy_per_km
      else 0) := rfl
  have hEm : 0 ≤ (calculate_energy_consumption P time velocity).E_motor_kWh := by
    have heq : (calculate_energy_consumption P time velocity).E_motor_kWh =
        trapz (fun i => max (pMotorAt P time velocity i) 0) (arrAt time)
          time.length / 3600000 := rfl
    rw [heq]
    have h := trapz_nonneg (fun i => max (pMotorAt P time velocity i) 0) (arrAt time)
      time.length (fun i => le_max_right _ _) hmono
    positivity
  have hEa : 0 ≤ (calculate_energy_consumption P time velocity).E_aux_kWh := by
    have heq : (calculate_energy_consumption P time velocity).E_aux_kWh =
        trapz (fun _ => pAuxTotal P) (arrAt time) time.length / 3600000 := rfl
    rw [heq]
    have h := trapz_nonneg (fun _ => pAuxTotal P) (arrAt time) time.length
      (fun i => mul_nonneg haux (by norm_num)) hmono
    positivity
  have hEt : 0 ≤ (calculate_energy_consumption P time velocity).E_total_kWh := by
    have heq : (calculate_energy_consumption P time velocity).E_total_kWh =
        (calculate_energy_consumption P time velocity).E_motor_kWh +
          (calculate_energy_consumption P time velocity).E_aux_kWh := rfl
    rw [heq]
    linarith
  refine ⟨?_, ?_, ?_⟩
  · intro h
    rw [hepk, h]
    simp
  · intro h
    rw [hrange, h]
    simp
  · intro hne
    have hd : (calculate_energy_consumption P time velocity).distance_km > 0 := by
      by_contra hdn
      rw [hepk, if_neg hdn] at hne
      exact hne rfl
    have hepk2 : (calculate_energy_consumption P time velocity).energy_per_km =
        (calculate_energy_consumption P time velocity).E_total_kWh /
          (calculate_energy_consumption P time velocity).distance_km := by
      rw [hepk, if_pos hd]
    have hpos : 0 < (calculate_energy_consumption P time velocity).energy_per_km := by
      refine lt_of_le_of_ne ?_ (Ne.symm hne)
      rw [hepk2]
      exact div_nonneg hEt (le_of_lt hd)
    rw [hrange, if_pos hpos]

/-- Witness for C4 at the default parameters and the two-sample
standstill cycle (zero distance, so both guards fire). -/
theorem range_guards_division_witness :
    (∀ i, i + 1 < ([(0 : ℚ), 1] : List ℚ).length →
      arrAt [0, 1] i ≤ arrAt [0, 1] (i + 1)) ∧
      0 ≤ defaultParams.aux.get_total_aux_power ∧
      (((calculate_energy_consumption defaultParams [0, 1] [0, 0]).distance_km = 0 →
        (calculate_energy_consumption defaultParams [0, 1] [0, 0]).energy_per_km = 0) ∧
      ((calculate_energy_consumption defaultParams [0, 1] [0, 0]).energy_per_km = 0 →
        (calculate_energy_consumption defaultParams [0, 1] [0, 0]).estimated_range_km = 0) ∧
      ((calculate_energy_consumption defaultParams [0, 1] [0, 0]).energy_per_km ≠ 0 →
        (calculate_energy_consumption defaultParams [0, 1] [0, 0]).estimated_range_km =
          ((calculate_energy_consumption defaultParams [0, 1] [0, 0]).soc_final -
              defaultParams.battery.soc_min) *
            defaultParams.battery.usable_capacity /
            (calculate_energy_consumption defaultParams [0, 1] [0, 0]).energy_per_km)) :=
  ⟨fun i hi => by
      have h0 : i = 0 := by
        simp only [List.length_cons, List.length_nil] at hi
        omega
      subst h0
      norm_num [arrAt],
    by norm_num [defaultParams, defaultAux, AuxiliaryLoads.get_total_aux_power],
    range_guards_division defaultParams [0, 1] [0, 0]
      (fun i hi => by
        have h0 : i = 0 := by
          simp only [List.length_cons, List.length_nil] at hi
          omega
        subst h0
        norm_num [arrAt])
      (by norm_num [defaultParams, defaultAux, AuxiliaryLoads.get_total_aux_power])⟩
